import Mathlib

/-!
Verification development for the what-the-type Result and Option library.

Shallow embedding of three TypeScript modules:
* the Option module (src/src/examples/result/option.ts),
* the fuller Result module (src/unnamed/part_001), embedded as `WTT.Result`,
* the older Result module (src/src/examples/result/result.ts), embedded as
  `WTT.ResultV1`.

Both containers are tagged unions distinguished by a unique symbol tag; the
tag together with the payload is exactly an inductive constructor, so each
container becomes a two-constructor inductive type.  Methods that can throw
(`unwrap`, the four assertions) are embedded as functions into
`Except String`, carrying the thrown message.  Methods that take a
caller-supplied function are embedded twice: once purely (the function
argument is assumed total), and once over an arbitrary monad `m`
(suffix `Eff`), with the same control flow as the source, so that effects of
the caller-supplied function (a call counter, a thrown exception) become
observable and short-circuiting is provable rather than assumed.
TypeScript generics are erased at runtime; heterogeneous unions such as the
`T | T2` return type of `unwrapOr` are embedded at a single instantiation.
-/

namespace WTT

/-- Embedding of the Option tagged union (option.ts lines 20 to 41):
`Some` holds one value, `None` holds nothing.  The private symbol tag plus
payload is represented by the constructor. -/
inductive Option (T : Type) where
  | some (value : T)
  | none

/-- Embedding of the Result tagged union of the fuller module
(part_001 lines 22 to 61): `Ok` holds a success value, `Err` an error. -/
inductive Result (T E : Type) where
  | ok (value : T)
  | err (error : E)

/-- Embedding of the Result tagged union of the older module
(result.ts): same two variants; the module defines fewer operations
(no mapBoth, no toOption, no assertErr). -/
inductive ResultV1 (T E : Type) where
  | ok (value : T)
  | err (error : E)

/-- Option.unwrap (option.ts lines 49 to 51 and 70 to 72): returns the held
value for Some; for None it throws Error with message Cannot unwrap None. -/
def Option.unwrap {T : Type} : Option T → Except String T
  | Option.some v => Except.ok v
  | Option.none => Except.error "Cannot unwrap None"

/-- Option.unwrapOr (option.ts lines 52 to 54 and 73 to 75): the held value
for Some, the supplied default for None; never throws. -/
def Option.unwrapOr {T : Type} : Option T → T → T
  | Option.some v, _ => v
  | Option.none, d => d

/-- Option.map (option.ts lines 55 to 57 and 76 to 78): applies fn and
rewraps as Some when present; None returns this unchanged. -/
def Option.map {T T2 : Type} : Option T → (T → T2) → Option T2
  | Option.some v, fn => Option.some (fn v)
  | Option.none, _ => Option.none

/-- Option.andThen (option.ts lines 58 to 60 and 79 to 81): applies fn and
returns its result directly when present; None returns this unchanged. -/
def Option.andThen {T T2 : Type} : Option T → (T → Option T2) → Option T2
  | Option.some v, fn => fn v
  | Option.none, _ => Option.none

/-- Option.toResult (option.ts lines 61 to 63 and 82 to 84): Some v becomes
Result.ok v, ignoring the supplied error; None becomes Result.err error. -/
def Option.toResult {T E : Type} : Option T → E → Result T E
  | Option.some v, _ => Result.ok v
  | Option.none, e => Result.err e

/-- Option.isSome (option.ts lines 87 to 89): the tag comparison
option._tag === someTag. -/
def Option.isSome {T : Type} : Option T → Bool
  | Option.some _ => true
  | Option.none => false

/-- Option.isNone (option.ts lines 91 to 93): the tag comparison
option._tag === noneTag. -/
def Option.isNone {T : Type} : Option T → Bool
  | Option.some _ => false
  | Option.none => true

/-- Option.assertSome (option.ts lines 95 to 99): throws TypeError with the
fixed message when the tag is not someTag, otherwise returns normally. -/
def Option.assertSome {T : Type} : Option T → Except String Unit
  | Option.some _ => Except.ok ()
  | Option.none => Except.error "Expected a Some, but got a None"

/-- Option.assertNone (option.ts lines 101 to 105): throws TypeError with the
fixed message when the tag is not noneTag, otherwise returns normally. -/
def Option.assertNone {T : Type} : Option T → Except String Unit
  | Option.some _ => Except.error "Expected a None, but got a Some"
  | Option.none => Except.ok ()

/-- Result.unwrap of the fuller module (part_001 lines 69 to 71 and 101 to
103): the held value for Ok; Err throws Error with message Cannot unwrap
Err. -/
def Result.unwrap {T E : Type} : Result T E → Except String T
  | Result.ok v => Except.ok v
  | Result.err _ => Except.error "Cannot unwrap Err"

/-- Result.unwrapOr (part_001 lines 72 to 74 and 104 to 106): the held value
for Ok, the supplied default for Err; never throws. -/
def Result.unwrapOr {T E : Type} : Result T E → T → T
  | Result.ok v, _ => v
  | Result.err _, d => d

/-- Result.map (part_001 lines 75 to 77 and 107 to 109): Ok applies fn to the
value and rewraps with Result.ok; Err returns this unchanged. -/
def Result.map {T T2 E : Type} : Result T E → (T → T2) → Result T2 E
  | Result.ok v, fn => Result.ok (fn v)
  | Result.err e, _ => Result.err e

/-- Result.mapErr (part_001 lines 78 to 80 and 110 to 112): Ok returns this
unchanged; Err applies fn to the error and rewraps with Result.err. -/
def Result.mapErr {T E E2 : Type} : Result T E → (E → E2) → Result T E2
  | Result.ok v, _ => Result.ok v
  | Result.err e, fn => Result.err (fn e)

/-- Result.andThen (part_001 lines 81 to 83 and 113 to 115): Ok applies fn to
the value and returns its result directly; Err returns this unchanged. -/
def Result.andThen {T T2 E : Type} : Result T E → (T → Result T2 E) → Result T2 E
  | Result.ok v, fn => fn v
  | Result.err e, _ => Result.err e

/-- Result.mapBoth (part_001 lines 84 to 89 and 116 to 121): Ok applies okFn
only, Err applies errFn only; exactly one of the two runs. -/
def Result.mapBoth {T T2 E E2 : Type} :
    Result T E → (T → T2) → (E → E2) → Result T2 E2
  | Result.ok v, okFn, _ => Result.ok (okFn v)
  | Result.err e, _, errFn => Result.err (errFn e)

/-- Result.toOption (part_001 lines 90 to 92 and 122 to 124): Ok v becomes
Option.some v; Err becomes Option.none, discarding the error. -/
def Result.toOption {T E : Type} : Result T E → Option T
  | Result.ok v => Option.some v
  | Result.err _ => Option.none

/-- Result.isOk (part_001 lines 133 to 135): the tag comparison
result._tag === okTag. -/
def Result.isOk {T E : Type} : Result T E → Bool
  | Result.ok _ => true
  | Result.err _ => false

/-- Result.isErr (part_001 lines 142 to 144): the tag comparison
result._tag === errTag. -/
def Result.isErr {T E : Type} : Result T E → Bool
  | Result.ok _ => false
  | Result.err _ => true

/-- Result.assertOk (part_001 lines 164 to 170): throws TypeError with the
fixed message when the tag is not okTag, otherwise returns normally. -/
def Result.assertOk {T E : Type} : Result T E → Except String Unit
  | Result.ok _ => Except.ok ()
  | Result.err _ => Except.error "Expected an Ok, but got an Err"

/-- Result.assertErr (part_001 lines 173 to 179): throws TypeError with the
fixed message when the tag is not errTag, otherwise returns normally. -/
def Result.assertErr {T E : Type} : Result T E → Except String Unit
  | Result.ok _ => Except.error "Expected an Err, but got an Ok"
  | Result.err _ => Except.ok ()

/-- Option.map with the same control flow as the source but a caller-supplied
function running in an arbitrary monad: on Some the function is invoked once
and its result rewrapped, on None the function is not touched. -/
def Option.mapEff {m : Type → Type} [Monad m] {T T2 : Type} :
    Option T → (T → m T2) → m (Option T2)
  | Option.some v, fn => Option.some <$> fn v
  | Option.none, _ => pure Option.none

/-- Option.andThen over an arbitrary monad, same control flow as the
source: on Some the function is invoked once and its result returned
directly, on None the function is not touched. -/
def Option.andThenEff {m : Type → Type} [Monad m] {T T2 : Type} :
    Option T → (T → m (Option T2)) → m (Option T2)
  | Option.some v, fn => fn v
  | Option.none, _ => pure Option.none

/-- Result.map over an arbitrary monad, same control flow as the source. -/
def Result.mapEff {m : Type → Type} [Monad m] {T T2 E : Type} :
    Result T E → (T → m T2) → m (Result T2 E)
  | Result.ok v, fn => Result.ok <$> fn v
  | Result.err e, _ => pure (Result.err e)

/-- Result.mapErr over an arbitrary monad, same control flow as the source. -/
def Result.mapErrEff {m : Type → Type} [Monad m] {T E E2 : Type} :
    Result T E → (E → m E2) → m (Result T E2)
  | Result.ok v, _ => pure (Result.ok v)
  | Result.err e, fn => Result.err <$> fn e

/-- Result.andThen over an arbitrary monad, same control flow as the
source. -/
def Result.andThenEff {m : Type → Type} [Monad m] {T T2 E : Type} :
    Result T E → (T → m (Result T2 E)) → m (Result T2 E)
  | Result.ok v, fn => fn v
  | Result.err e, _ => pure (Result.err e)

/-- Result.mapBoth over an arbitrary monad, same control flow as the source:
exactly the function matching the active variant is invoked. -/
def Result.mapBothEff {m : Type → Type} [Monad m] {T T2 E E2 : Type} :
    Result T E → (T → m T2) → (E → m E2) → m (Result T2 E2)
  | Result.ok v, okFn, _ => Result.ok <$> okFn v
  | Result.err e, _, errFn => Result.err <$> errFn e

/-- ResultV1.unwrap (result.ts, Ok lines and Err lines of the older
module): the held value for Ok; Err throws Error with message Cannot unwrap
Err. -/
def ResultV1.unwrap {T E : Type} : ResultV1 T E → Except String T
  | ResultV1.ok v => Except.ok v
  | ResultV1.err _ => Except.error "Cannot unwrap Err"

/-- ResultV1.unwrapOr (result.ts): the held value for Ok, the supplied
default for Err. -/
def ResultV1.unwrapOr {T E : Type} : ResultV1 T E → T → T
  | ResultV1.ok v, _ => v
  | ResultV1.err _, d => d

/-- ResultV1.map (result.ts): Ok rewraps fn of the value; Err returns this
unchanged. -/
def ResultV1.map {T T2 E : Type} : ResultV1 T E → (T → T2) → ResultV1 T2 E
  | ResultV1.ok v, fn => ResultV1.ok (fn v)
  | ResultV1.err e, _ => ResultV1.err e

/-- ResultV1.mapErr (result.ts): Ok returns this unchanged; Err rewraps fn
of the error. -/
def ResultV1.mapErr {T E E2 : Type} : ResultV1 T E → (E → E2) → ResultV1 T E2
  | ResultV1.ok v, _ => ResultV1.ok v
  | ResultV1.err e, fn => ResultV1.err (fn e)

/-- ResultV1.andThen (result.ts): Ok returns fn of the value directly; Err
returns this unchanged. -/
def ResultV1.andThen {T T2 E : Type} :
    ResultV1 T E → (T → ResultV1 T2 E) → ResultV1 T2 E
  | ResultV1.ok v, fn => fn v
  | ResultV1.err e, _ => ResultV1.err e

/-- ResultV1.isOk (result.ts lines 201 to 203): the tag comparison. -/
def ResultV1.isOk {T E : Type} : ResultV1 T E → Bool
  | ResultV1.ok _ => true
  | ResultV1.err _ => false

/-- ResultV1.isErr (result.ts lines 210 to 212): the tag comparison. -/
def ResultV1.isErr {T E : Type} : ResultV1 T E → Bool
  | ResultV1.ok _ => false
  | ResultV1.err _ => true

/-- ResultV1.assertOk (result.ts lines 232 to 238): throws TypeError with
the fixed message when the tag is not okTag. -/
def ResultV1.assertOk {T E : Type} : ResultV1 T E → Except String Unit
  | ResultV1.ok _ => Except.ok ()
  | ResultV1.err _ => Except.error "Expected an Ok, but got an Err"

/-- Identification of a container of the fuller Result module with the
container of the older module carrying the same tag and payload. -/
def Result.toV1 {T E : Type} : Result T E → ResultV1 T E
  | Result.ok v => ResultV1.ok v
  | Result.err e => ResultV1.err e

end WTT

/-- C1: the conversion operations map variants pointwise and round-trip:
Result.ok v toOption is Option.some v, Result.err e toOption is Option.none,
Option.some v toResult e is Result.ok v, Option.none toResult e is
Result.err e; hence Result.ok v toOption toResult e equals Result.ok v for
any e, and Option.none toResult e toOption equals Option.none (structural
equality on tag and payload). -/
theorem c1_conversion_roundtrip {T E : Type} (v : T) (e : E) :
    (WTT.Result.ok v : WTT.Result T E).toOption = WTT.Option.some v
    ∧ (WTT.Result.err e : WTT.Result T E).toOption = WTT.Option.none
    ∧ (WTT.Option.some v : WTT.Option T).toResult e = WTT.Result.ok v
    ∧ (WTT.Option.none : WTT.Option T).toResult e = WTT.Result.err e
    ∧ (WTT.Result.ok v : WTT.Result T E).toOption.toResult e = WTT.Result.ok v
    ∧ ((WTT.Option.none : WTT.Option T).toResult e).toOption = WTT.Option.none :=
  ⟨rfl, rfl, rfl, rfl, rfl, rfl⟩

/-- C2: mapBoth fusion: for every Result r and functions f, g, mapBoth f g
equals map f then mapErr g, and equals mapErr g then map f; exactly the
function matching the active variant is applied. -/
theorem c2_mapBoth_fusion {T T2 E E2 : Type}
    (r : WTT.Result T E) (f : T → T2) (g : E → E2) :
    r.mapBoth f g = (r.map f).mapErr g
    ∧ r.mapBoth f g = (r.mapErr g).map f
    ∧ (∀ v : T, (WTT.Result.ok v : WTT.Result T E).mapBoth f g = WTT.Result.ok (f v))
    ∧ (∀ e : E, (WTT.Result.err e : WTT.Result T E).mapBoth f g = WTT.Result.err (g e)) := by
  cases r <;> exact ⟨rfl, rfl, fun _ => rfl, fun _ => rfl⟩

/-- C3: short-circuit law, over the instrumented semantics where the
caller-supplied function runs in a state monad counting whatever it likes:
on None, map and andThen return None with the state untouched, so the
function is never invoked; on Err e, map and andThen return Err e unchanged
with the state untouched, and mapBoth runs only errFn; on Ok v, mapErr
returns Ok v unchanged with the state untouched, and mapBoth runs only
okFn.  Each result is independent of the inactive-side function. -/
theorem c3_short_circuit {T T2 E E2 : Type} (v : T) (e : E) (n : Nat)
    (fn : T → StateM Nat T2) (fnO : T → StateM Nat (WTT.Option T2))
    (fnR : T → StateM Nat (WTT.Result T2 E)) (fnE : E → StateM Nat E2)
    (okFn : T → StateM Nat T2) (errFn : E → StateM Nat E2) :
    ((WTT.Option.none : WTT.Option T).mapEff fn).run n = (WTT.Option.none, n)
    ∧ ((WTT.Option.none : WTT.Option T).andThenEff fnO).run n = (WTT.Option.none, n)
    ∧ ((WTT.Result.err e : WTT.Result T E).mapEff fn).run n = (WTT.Result.err e, n)
    ∧ ((WTT.Result.err e : WTT.Result T E).andThenEff fnR).run n = (WTT.Result.err e, n)
    ∧ ((WTT.Result.err e : WTT.Result T E).mapBothEff okFn errFn).run n
        = ((WTT.Result.err <$> errFn e : StateM Nat (WTT.Result T2 E2)).run n)
    ∧ ((WTT.Result.ok v : WTT.Result T E).mapErrEff fnE).run n = (WTT.Result.ok v, n)
    ∧ ((WTT.Result.ok v : WTT.Result T E).mapBothEff okFn errFn).run n
        = ((WTT.Result.ok <$> okFn v : StateM Nat (WTT.Result T2 E2)).run n) :=
  ⟨rfl, rfl, rfl, rfl, rfl, rfl, rfl⟩

/-- C4: unwrap raises exactly on the absent or failure variant, with a fixed
message: Option.some v unwrap returns v, Option.none unwrap throws with
message Cannot unwrap None; Result.ok v unwrap returns v, Result.err e
unwrap throws with message Cannot unwrap Err, for every v and e. -/
theorem c4_unwrap_messages {T E : Type} (v : T) (e : E) :
    (WTT.Option.some v : WTT.Option T).unwrap = Except.ok v
    ∧ (WTT.Option.none : WTT.Option T).unwrap = Except.error "Cannot unwrap None"
    ∧ (WTT.Result.ok v : WTT.Result T E).unwrap = Except.ok v
    ∧ (WTT.Result.err e : WTT.Result T E).unwrap = Except.error "Cannot unwrap Err" :=
  ⟨rfl, rfl, rfl, rfl⟩

/-- C5: each assertion raises exactly on the opposite variant, with a fixed
message, and returns normally otherwise: assertSome fails only on None,
assertNone only on Some, assertOk only on Err, assertErr only on Ok, each
with its fixed message. -/
theorem c5_assertion_messages {T E : Type} (v : T) (e : E) :
    (WTT.Option.some v : WTT.Option T).assertSome = Except.ok ()
    ∧ (WTT.Option.none : WTT.Option T).assertSome
        = Except.error "Expected a Some, but got a None"
    ∧ (WTT.Option.none : WTT.Option T).assertNone = Except.ok ()
    ∧ (WTT.Option.some v : WTT.Option T).assertNone
        = Except.error "Expected a None, but got a Some"
    ∧ (WTT.Result.ok v : WTT.Result T E).assertOk = Except.ok ()
    ∧ (WTT.Result.err e : WTT.Result T E).assertOk
        = Except.error "Expected an Ok, but got an Err"
    ∧ (WTT.Result.err e : WTT.Result T E).assertErr = Except.ok ()
    ∧ (WTT.Result.ok v : WTT.Result T E).assertErr
        = Except.error "Expected an Err, but got an Ok" :=
  ⟨rfl, rfl, rfl, rfl, rfl, rfl, rfl, rfl⟩

/-- C6: unwrapOr never fails and returns the held value or the default:
Option.some v unwrapOr d is v and Result.ok v unwrapOr d is v, ignoring the
default; Option.none unwrapOr d is d and Result.err e unwrapOr d is d, the
error never surfacing. -/
theorem c6_unwrapOr {T E : Type} (v : T) (e : E) (d : T) :
    (WTT.Option.some v : WTT.Option T).unwrapOr d = v
    ∧ (WTT.Option.none : WTT.Option T).unwrapOr d = d
    ∧ (WTT.Result.ok v : WTT.Result T E).unwrapOr d = v
    ∧ (WTT.Result.err e : WTT.Result T E).unwrapOr d = d :=
  ⟨rfl, rfl, rfl, rfl⟩

/-- C7: narrowing consistency: for every Option o, isSome o is the negation
of isNone o, and for every Result r, isOk r is the negation of isErr r. -/
theorem c7_narrowing_consistency {T E : Type}
    (o : WTT.Option T) (r : WTT.Result T E) :
    o.isSome = !o.isNone ∧ r.isOk = !r.isErr := by
  cases o <;> cases r <;> exact ⟨rfl, rfl⟩

/-- C8: totality of the non-failing API: over the semantics where the
caller-supplied function may itself throw, every combinator taking a
function argument (map and andThen on Option; map, mapErr, andThen and
mapBoth on Result) returns a value and never fails, provided the supplied
functions are total.  The remaining non-failing operations (some, none, ok,
err, unwrapOr, toOption, toResult, isSome, isNone, isOk, isErr) are
embedded as plain total functions, not into Except: their bodies contain no
throw, so only unwrap and the four assertions can terminate abruptly. -/
theorem c8_totality {T T2 E E2 : Type}
    (o : WTT.Option T) (r : WTT.Result T E)
    (fn : T → Except String T2) (fnO : T → Except String (WTT.Option T2))
    (fnR : T → Except String (WTT.Result T2 E)) (fnE : E → Except String E2)
    (okFn : T → Except String T2) (errFn : E → Except String E2)
    (hfn : ∀ x, ∃ y, fn x = Except.ok y)
    (hfnO : ∀ x, ∃ y, fnO x = Except.ok y)
    (hfnR : ∀ x, ∃ y, fnR x = Except.ok y)
    (hfnE : ∀ x, ∃ y, fnE x = Except.ok y)
    (hokFn : ∀ x, ∃ y, okFn x = Except.ok y)
    (herrFn : ∀ x, ∃ y, errFn x = Except.ok y) :
    (∃ z, o.mapEff fn = Except.ok z)
    ∧ (∃ z, o.andThenEff fnO = Except.ok z)
    ∧ (∃ z, r.mapEff fn = Except.ok z)
    ∧ (∃ z, r.mapErrEff fnE = Except.ok z)
    ∧ (∃ z, r.andThenEff fnR = Except.ok z)
    ∧ (∃ z, r.mapBothEff okFn errFn = Except.ok z) := by
  refine ⟨?_, ?_, ?_, ?_, ?_, ?_⟩
  · cases o with
    | some v =>
        obtain ⟨y, hy⟩ := hfn v
        exact ⟨WTT.Option.some y, by simp [WTT.Option.mapEff, hy, Except.map]⟩
    | none => exact ⟨WTT.Option.none, rfl⟩
  · cases o with
    | some v =>
        obtain ⟨y, hy⟩ := hfnO v
        exact ⟨y, by simpa [WTT.Option.andThenEff] using hy⟩
    | none => exact ⟨WTT.Option.none, rfl⟩
  · cases r with
    | ok v =>
        obtain ⟨y, hy⟩ := hfn v
        exact ⟨WTT.Result.ok y, by simp [WTT.Result.mapEff, hy, Except.map]⟩
    | err e => exact ⟨WTT.Result.err e, rfl⟩
  · cases r with
    | ok v => exact ⟨WTT.Result.ok v, rfl⟩
    | err e =>
        obtain ⟨y, hy⟩ := hfnE e
        exact ⟨WTT.Result.err y, by simp [WTT.Result.mapErrEff, hy, Except.map]⟩
  · cases r with
    | ok v =>
        obtain ⟨y, hy⟩ := hfnR v
        exact ⟨y, by simpa [WTT.Result.andThenEff] using hy⟩
    | err e => exact ⟨WTT.Result.err e, rfl⟩
  · cases r with
    | ok v =>
        obtain ⟨y, hy⟩ := hokFn v
        exact ⟨WTT.Result.ok y, by simp [WTT.Result.mapBothEff, hy, Except.map]⟩
    | err e =>
        obtain ⟨y, hy⟩ := herrFn e
        exact ⟨WTT.Result.err y, by simp [WTT.Result.mapBothEff, hy, Except.map]⟩

/-- Witness for C8 at a concrete instantiation: the combinators return a
value on concrete inputs with total concrete function arguments. -/
theorem c8_totality_witness :
    ∃ z, (WTT.Option.some 3 : WTT.Option Nat).mapEff
      (fun x => (Except.ok (x + 1) : Except String Nat)) = Except.ok z :=
  (c8_totality (WTT.Option.some 3) (WTT.Result.ok 3 : WTT.Result Nat Nat)
    (fun x => Except.ok (x + 1)) (fun x => Except.ok (WTT.Option.some x))
    (fun x => Except.ok (WTT.Result.ok x)) (fun x => Except.ok (x + 2))
    (fun x => Except.ok (x + 3)) (fun x => Except.ok (x + 4))
    (fun x => ⟨x + 1, rfl⟩) (fun x => ⟨WTT.Option.some x, rfl⟩)
    (fun x => ⟨WTT.Result.ok x, rfl⟩) (fun x => ⟨x + 2, rfl⟩)
    (fun x => ⟨x + 3, rfl⟩) (fun x => ⟨x + 4, rfl⟩)).1

/-- C9: andThen chaining is associative: for every Result a and functions f
and g returning Results, a andThen f andThen g is structurally equal to
a andThen fun x => f x andThen g. -/
theorem c9_andThen_assoc {T T2 T3 E : Type} (a : WTT.Result T E)
    (f : T → WTT.Result T2 E) (g : T2 → WTT.Result T3 E) :
    (a.andThen f).andThen g = a.andThen (fun x => (f x).andThen g) := by
  cases a <;> rfl

/-- C10: the older Result module (result.ts) and the fuller one (part_001)
agree on every operation both define: under the tag-and-payload
identification toV1, the constructors correspond and unwrap, unwrapOr, map,
mapErr, andThen, isOk, isErr and assertOk return equal results, including
equal throw behavior and messages. -/
theorem c10_v1_v2_agree {T T2 E E2 : Type}
    (r : WTT.Result T E) (v : T) (e : E) (d : T)
    (f : T → T2) (g : E → E2) (fnR : T → WTT.Result T2 E) :
    (WTT.Result.ok v : WTT.Result T E).toV1 = WTT.ResultV1.ok v
    ∧ (WTT.Result.err e : WTT.Result T E).toV1 = WTT.ResultV1.err e
    ∧ r.toV1.unwrap = r.unwrap
    ∧ r.toV1.unwrapOr d = r.unwrapOr d
    ∧ (r.map f).toV1 = r.toV1.map f
    ∧ (r.mapErr g).toV1 = r.toV1.mapErr g
    ∧ (r.andThen fnR).toV1 = r.toV1.andThen (fun x => (fnR x).toV1)
    ∧ r.toV1.isOk = r.isOk
    ∧ r.toV1.isErr = r.isErr
    ∧ r.toV1.assertOk = r.assertOk := by
  cases r <;> exact ⟨rfl, rfl, rfl, rfl, rfl, rfl, rfl, rfl, rfl, rfl⟩
